import Mathlib

/-!
Verification development for the Orion trial production/execution core.

The embedding covers the three components the claims concern:

* the ParallelStrategy layer (`NoParallelStrategy`, `MaxParallelStrategy`,
  `MeanParallelStrategy`), whose module `orion/core/worker/strategies.py` is not
  among the source files (only its unit test is), and is therefore modelled
  from the specification;
* the `Producer` (`src/orion/core/worker/producer.py`), embedded faithfully,
  including the fact that the module never imports `copy` and that
  `_produces_lies` references the unbound names `incompleted_trials` and
  `trial`, so that evaluating those names raises a Python `NameError`;
* the `Consumer`, whose module is likewise absent (only its unit tests are),
  modelled from the specification.
-/

/-! ## Result and trial data for the strategy layer -/

/-- Kind tag of a trial result entry (`Trial.Result.type` in the code:
`objective`, `constraint`, `gradient`, plus the synthetic `lie` kind used for
lying results). -/
inductive ResultKind where
  | objective
  | constraint
  | gradient
  | lie
deriving DecidableEq, BEq

/-- A named, typed result entry of a trial (`Trial.Result`). -/
structure TResult where
  name : String
  kind : ResultKind
  value : Rat
deriving DecidableEq

/-- A trial as seen by the strategy layer: its sequence of result entries. -/
structure STrial where
  results : List TResult
deriving DecidableEq

/-- The objective value of a trial, when it has one: the value of its first
result entry of kind `objective`.  A trial with no objective is incomplete. -/
def STrial.objective (t : STrial) : Option Rat :=
  (t.results.find? (fun r => r.kind == ResultKind.objective)).map TResult.value

/-- The values of the objective-typed entries of a batch of results. -/
def objValues (results : List TResult) : List Rat :=
  (results.filter (fun r => r.kind == ResultKind.objective)).map TResult.value

/-! ## ParallelStrategy

Modelled from the spec: the strategies module (`orion/core/worker/strategies.py`)
is not among the source files; per spec section 4.1 a strategy accumulates
statistics over all completed objective results observed so far (`observe`
filters its input to objective-typed results only), and `lie` reads that state
to synthesize a result for a still-running trial. -/

/-- The closed set of strategy variants (spec sections 4.1 and 9). -/
inductive StrategyKind where
  | noStrategy
  | maxStrategy
  | meanStrategy
deriving DecidableEq

/-- Modelled from the spec: `ParallelStrategy.observe(points, results)` —
accumulate the objective-typed result values of the batch into the strategy
state (spec section 4.1: observe filters its input to objective-typed results
only). -/
def strategyObserve (state : List Rat) (results : List TResult) : List Rat :=
  state ++ objValues results

/-- The maximum of the observed values, when any have been observed
(`MaxParallelStrategy`: running max over observed objective values). -/
def maxLie (observed : List Rat) : Option Rat :=
  observed.max?

/-- The arithmetic mean of the observed values, when any have been observed
(`MeanParallelStrategy`: mean of all observed objective values). -/
def meanLie (observed : List Rat) : Option Rat :=
  if observed.isEmpty then none else some (observed.sum / (observed.length : Rat))

/-- Modelled from the spec: `lie(trial)` returns a synthetic result for an
in-flight trial, or `none`.  A trial that already carries an objective result
gets no lie (the lying result is for still-running trials, spec glossary);
`NoParallelStrategy.lie` always returns `none`; the max/mean variants wrap the
corresponding statistic in a result entry of kind `lie`.  `lie` never mutates
the trial passed to it. -/
def strategyLie (kind : StrategyKind) (observed : List Rat) (t : STrial) : Option TResult :=
  if (STrial.objective t).isSome then none
  else
    match kind with
    | StrategyKind.noStrategy => none
    | StrategyKind.maxStrategy =>
        (maxLie observed).map (fun v => { name := "lie", kind := ResultKind.lie, value := v })
    | StrategyKind.meanStrategy =>
        (meanLie observed).map (fun v => { name := "lie", kind := ResultKind.lie, value := v })

/-- C1: after a fresh strategy observes a batch of results, for every
incomplete trial the max strategy lies with the maximum observed
objective-typed value, the mean strategy lies with their arithmetic mean, and
the no-op strategy lies with `none`. -/
theorem parallel_strategies_lie (results : List TResult) (t : STrial)
    (hinc : STrial.objective t = none)
    (hne : objValues results ≠ []) :
    (∃ m, (strategyLie StrategyKind.maxStrategy (strategyObserve [] results) t).map TResult.value
            = some m
        ∧ m ∈ objValues results ∧ ∀ v ∈ objValues results, v ≤ m)
    ∧ (strategyLie StrategyKind.meanStrategy (strategyObserve [] results) t).map TResult.value
        = some ((objValues results).sum / ((objValues results).length : Rat))
    ∧ strategyLie StrategyKind.noStrategy (strategyObserve [] results) t = none := by
  have hobs : strategyObserve [] results = objValues results := by
    simp [strategyObserve]
  obtain ⟨m, hm⟩ : ∃ m, (objValues results).max? = some m := by
    cases h : (objValues results).max? with
    | none => exact absurd (List.max?_eq_none_iff.mp h) hne
    | some m => exact ⟨m, rfl⟩
  refine ⟨⟨m, ?_, ?_, ?_⟩, ?_, ?_⟩
  · simp [strategyLie, hinc, hobs, maxLie, hm]
  · exact List.max?_mem (fun a b => max_choice a b) hm
  · exact fun v hv => ((List.max?_le_iff (fun a b c => max_le_iff) hm).1 le_rfl) v hv
  · simp [strategyLie, hinc, hobs, meanLie, hne]
  · simp [strategyLie, hinc]

/-- Ten completed results with objective values 0..9, as in the end-to-end
scenario of spec section 8. -/
def results09 : List TResult :=
  ([0, 1, 2, 3, 4, 5, 6, 7, 8, 9] : List Rat).map
    (fun v => { name := "foo", kind := ResultKind.objective, value := v })

/-- An incomplete trial: no result entries at all, hence no objective. -/
def trial6 : STrial := { results := [] }

/-- Witness for C1: on objective values 0..9 the max strategy lies 9, the mean
strategy lies 9/2 = 4.5, and the no-op strategy lies nothing. -/
theorem parallel_strategies_lie_witness :
    (strategyLie StrategyKind.maxStrategy (strategyObserve [] results09) trial6).map TResult.value
      = some 9
    ∧ (strategyLie StrategyKind.meanStrategy (strategyObserve [] results09) trial6).map TResult.value
      = some (9 / 2)
    ∧ strategyLie StrategyKind.noStrategy (strategyObserve [] results09) trial6 = none := by
  have h := parallel_strategies_lie results09 trial6 (by decide) (by decide)
  refine ⟨by decide, ?_, h.2.2⟩
  have hv : objValues results09 = ([0, 1, 2, 3, 4, 5, 6, 7, 8, 9] : List Rat) := rfl
  have h2 := h.2.1
  rw [hv] at h2
  rw [h2]
  norm_num

/-! ## Producer state (`src/orion/core/worker/producer.py`)

The Producer is embedded faithfully.  The Algorithm is an external black box
(spec section 6) and is modelled as a log of the batches it has observed;
`TrialsHistory` (whose module is not among the source files) is modelled from
the spec as the frontier of trial identifiers most recently observed. -/

/-- A stored trial as the Producer sees it: its identifier (configurations are
deduplicated by id) and its objective result value. -/
structure PTrial where
  tid : Nat
  objValue : Rat
deriving DecidableEq

/-- Modelled from the spec: `TrialsHistory` (module
`orion/core/worker/trials_history.py` is not among the source files) — the
lineage frontier: the most recent set of trial identifiers observed by a given
algorithm view (`children`), advanced by `update` on each observed batch. -/
structure TrialsHistory where
  children : List Nat
deriving DecidableEq

/-- Modelled from the spec: `TrialsHistory.update(trials)` advances the
frontier to the identifiers of the batch just observed. -/
def TrialsHistory.update (h : TrialsHistory) (batch : List PTrial) : TrialsHistory :=
  { h with children := batch.map PTrial.tid }

/-- The external Algorithm black box (spec section 6), modelled as the log of
the point/result batches passed to its `observe`. -/
structure AlgoState where
  observedPoints : List Nat
  observedResults : List Rat
deriving DecidableEq

/-- `algorithm.observe(points, results)`: record the batch. -/
def AlgoState.observe (a : AlgoState) (points : List Nat) (results : List Rat) : AlgoState :=
  { observedPoints := a.observedPoints ++ points,
    observedResults := a.observedResults ++ results }

/-- The experiment as the Producer sees it (storage interface of spec
section 6): search space, pool size, the completed and active trials its
fetches return, the registered trial ids, and the algorithm and strategy
objects it hands to the Producer. -/
structure ExpState where
  space : Option Nat
  poolSize : Nat
  completedTrials : List PTrial
  activeTrials : List PTrial
  storedTrials : List Nat
  algorithms : AlgoState
  parallelStrategy : List Rat
deriving DecidableEq

/-- Python errors the producer module can raise. -/
inductive PyError where
  | nameError
  | runtimeError
deriving DecidableEq

/-- The Producer's own state after construction (`Producer.__init__`,
producer.py lines 29-48). -/
structure PState where
  space : Nat
  algorithm : AlgoState
  strategyObserved : List Rat
  maxAttempts : Nat
  naiveAlgorithm : Option AlgoState
  trialsHistory : TrialsHistory
  naiveTrialsHistory : Option TrialsHistory
  exp : ExpState
deriving DecidableEq

/-- `Producer.__init__(experiment, max_attempts=100)` (producer.py lines
29-48): raise `RuntimeError` when `experiment.space` is `None`; otherwise keep
the experiment's algorithm and parallel strategy, set `naive_algorithm` to
`None`, create a fresh `TrialsHistory()` (empty frontier), and set
`naive_trials_history` to `None`. -/
def Producer.init (e : ExpState) (maxAttempts : Nat) : Except PyError PState :=
  match e.space with
  | none => Except.error PyError.runtimeError
  | some sp =>
      Except.ok
        { space := sp
          algorithm := e.algorithms
          strategyObserved := e.parallelStrategy
          maxAttempts := maxAttempts
          naiveAlgorithm := none
          trialsHistory := { children := [] }
          naiveTrialsHistory := none
          exp := e }

/-- `Producer._update_algorithm` (producer.py lines 93-108): fetch the
completed trials; when non-empty, convert them to points and results, advance
the real `TrialsHistory` frontier, and feed the batch to the real algorithm's
`observe` and to the parallel strategy's `observe`. -/
def Producer.updateAlgorithm (s : PState) : PState :=
  let completed := s.exp.completedTrials
  if completed.isEmpty then s
  else
    let points := completed.map PTrial.tid
    let results := completed.map PTrial.objValue
    { s with
      trialsHistory := s.trialsHistory.update completed
      algorithm := s.algorithm.observe points results
      strategyObserved := s.strategyObserved ++ results }

/-- `Producer._produces_lies` (producer.py lines 110-124): line 112 binds
`incomplete_trials`, but line 113 (`log.debug("### %s", incompleted_trials)`)
evaluates the unbound name `incompleted_trials`, so a `NameError` is raised
before the loop over the active trials starts (the loop body would itself
evaluate the unbound name `trial`, its loop variable being `trials`).  The
state is returned unchanged alongside the error: no trial is registered and no
lying result is produced. -/
def Producer.producesLies (s : PState) : PState × Option PyError :=
  (s, some PyError.nameError)

/-- `Producer.update` (producer.py lines 88-91): `_update_algorithm()` then
`_update_naive_algorithm()`.  The first statement of `_update_naive_algorithm`
(line 128) evaluates `copy.deepcopy(self.algorithm)`, but the module `copy` is
never imported in producer.py (lines 11-15 import only `logging`,
`DuplicateKeyError`, `format_trials` and `TrialsHistory`), so a `NameError` is
raised before `naive_algorithm` is assigned and before `_produces_lies` is
reached.  The returned state carries the effects of `_update_algorithm` only,
paired with the raised error. -/
def Producer.update (s : PState) : PState × Option PyError :=
  (Producer.updateAlgorithm s, some PyError.nameError)

/-- C9: every call to `Producer.update()` raises a Python `NameError`: the
naive algorithm never observes anything (it is left exactly as it was, as is
the naive trials history), and `_produces_lies` itself also raises `NameError`
unconditionally — the naive-view construction is unreachable as written. -/
theorem update_raises_nameerror (s : PState) :
    (Producer.update s).2 = some PyError.nameError
    ∧ (Producer.update s).1.naiveAlgorithm = s.naiveAlgorithm
    ∧ (Producer.update s).1.naiveTrialsHistory = s.naiveTrialsHistory
    ∧ (Producer.producesLies s).2 = some PyError.nameError := by
  refine ⟨rfl, ?_, ?_, rfl⟩ <;>
    · simp only [Producer.update, Producer.updateAlgorithm]
      split <;> rfl

/-- A concrete experiment: space present, pool size 2, no completed trials,
one active (in-flight) trial with id 7, whose configuration is registered. -/
def expA : ExpState :=
  { space := some 1
    poolSize := 2
    completedTrials := []
    activeTrials := [{ tid := 7, objValue := 0 }]
    storedTrials := [7]
    algorithms := { observedPoints := [], observedResults := [] }
    parallelStrategy := [] }

/-- The Producer state constructed from `expA`. -/
def stateA : PState :=
  { space := 1
    algorithm := { observedPoints := [], observedResults := [] }
    strategyObserved := []
    maxAttempts := 100
    naiveAlgorithm := none
    trialsHistory := { children := [] }
    naiveTrialsHistory := none
    exp := expA }

/-- C5 (evaluation at the failing input): on a state with one in-flight trial,
`update()` raises `NameError`; the set of stored trials is indeed unchanged,
but only because the naive phase crashes — no lying result is ever appended
and the naive algorithm observes nothing (it is still unset). -/
theorem update_naive_phase_crashes :
    stateA.exp.activeTrials ≠ []
    ∧ (Producer.update stateA).2 = some PyError.nameError
    ∧ (Producer.update stateA).1.exp.storedTrials = stateA.exp.storedTrials
    ∧ (Producer.update stateA).1.naiveAlgorithm = none := by
  refine ⟨by decide, rfl, rfl, rfl⟩

/-- A stale naive snapshot, different from the real algorithm below. -/
def algoStale : AlgoState := { observedPoints := [], observedResults := [] }

/-- A Producer state whose real algorithm has already observed points 1 and 2
and whose naive slot still holds the stale snapshot `algoStale`. -/
def stateB : PState :=
  { space := 1
    algorithm := { observedPoints := [1, 2], observedResults := [3, 4] }
    strategyObserved := []
    maxAttempts := 100
    naiveAlgorithm := some algoStale
    trialsHistory := { children := [1, 2] }
    naiveTrialsHistory := some { children := [] }
    exp := { space := some 1, poolSize := 2, completedTrials := [], activeTrials := [],
             storedTrials := [1, 2],
             algorithms := { observedPoints := [1, 2], observedResults := [3, 4] },
             parallelStrategy := [] } }

/-- C6 (evaluation at the failing input): `update()` raises `NameError` at
`copy.deepcopy` before `naive_algorithm` is assigned, so after `update()` the
naive slot still holds whatever it held before and is not a copy of the real
algorithm: no fresh independent naive snapshot is ever produced. -/
theorem update_no_fresh_naive_copy :
    (Producer.update stateB).2 = some PyError.nameError
    ∧ (Producer.update stateB).1.naiveAlgorithm = stateB.naiveAlgorithm
    ∧ (Producer.update stateB).1.naiveAlgorithm
        ≠ some ((Producer.update stateB).1.algorithm) := by
  refine ⟨rfl, rfl, by decide⟩

/-- An experiment whose space is absent (still uninitialized). -/
def expNoSpace : ExpState :=
  { space := none
    poolSize := 2
    completedTrials := []
    activeTrials := []
    storedTrials := []
    algorithms := { observedPoints := [], observedResults := [] }
    parallelStrategy := [] }

/-- C10: constructing a Producer raises `RuntimeError` precisely when the
experiment's space is absent; on success the real trials history is a fresh
empty frontier and both the naive algorithm and the naive trials history are
unset until the first `update()`. -/
theorem producer_init_iff (e : ExpState) (m : Nat) :
    (Producer.init e m = Except.error PyError.runtimeError ↔ e.space = none)
    ∧ (∀ st, Producer.init e m = Except.ok st →
        st.trialsHistory.children = [] ∧ st.naiveAlgorithm = none
          ∧ st.naiveTrialsHistory = none) := by
  cases h : e.space with
  | none =>
      refine ⟨⟨fun _ => rfl, fun _ => ?_⟩, fun st hst => ?_⟩
      · simp [Producer.init, h]
      · simp [Producer.init, h] at hst
  | some sp =>
      refine ⟨⟨fun hctr => ?_, fun hctr => ?_⟩, fun st hst => ?_⟩
      · simp [Producer.init, h] at hctr
      · simp [h] at hctr
      · simp [Producer.init, h] at hst
        subst hst
        exact ⟨rfl, rfl, rfl⟩

/-- Witness for C10: on `expNoSpace` construction fails with `RuntimeError`;
on `expA` it succeeds and yields exactly `stateA`, whose trials history is a
fresh empty frontier and whose naive fields are unset. -/
theorem producer_init_witness :
    Producer.init expNoSpace 100 = Except.error PyError.runtimeError
    ∧ stateA.trialsHistory.children = [] ∧ stateA.naiveAlgorithm = none
    ∧ stateA.naiveTrialsHistory = none := by
  refine ⟨(producer_init_iff expNoSpace 100).1.mpr rfl, ?_⟩
  exact (producer_init_iff expA 100).2 stateA rfl

/-! ## The `Producer.produce` loop (producer.py lines 55-86)

`produce()` loops `while sampled_points < pool_size and n_attempts <
max_attempts`, incrementing `n_attempts` once per round; each round asks the
naive algorithm's `suggest` for a batch of candidate points, and registers the
candidates one by one.  Registration of a configuration already in storage
raises `DuplicateKeyError`, on which the code calls `self.update()` and breaks
out of the batch — but `update()` always raises `NameError` (see
`Producer.update` above), which propagates out of `produce()`, skipping the
final exhaustion check.  After the loop, `produce()` raises the
configuration-exhaustion `RuntimeError` whenever `n_attempts >= max_attempts`.

The naive algorithm's `suggest` is taken as a parameter `suggestB`, mapping
the round number to the batch it returns (the claims quantify over every such
behaviour); configurations are identified by their id, storage by the list of
registered ids.  Stamping `parents` on a candidate has no effect on
registration and is omitted. -/

/-- How one call to `produce()` ended, as observed by the caller: normal
return, the exhaustion `RuntimeError`, or the `NameError` escaping from the
`update()` call in the duplicate handler. -/
inductive ProduceOutcome where
  | ok
  | errExhausted
  | errNameError
deriving DecidableEq

/-- Observable trace of one `produce()` call: final storage contents, how many
new trials were registered (`sampled_points`), how many suggestion rounds ran
(`n_attempts`), how many times `update()` was invoked, and whether a
`DuplicateKeyError` was hit. -/
structure ProduceTrace where
  storage : List Nat
  sampled : Nat
  nAttempts : Nat
  updateCalls : Nat
  dupHit : Bool
deriving DecidableEq

/-- The inner `for new_point in new_points` loop (producer.py lines 66-77):
register candidates in order; a fresh id is inserted and counted, a duplicate
stops the batch.  Returns the storage, the new `sampled_points` count and
whether a duplicate was hit. -/
def Producer.registerBatch : List Nat → Nat → List Nat → List Nat × Nat × Bool
  | storage, sampled, [] => (storage, sampled, false)
  | storage, sampled, c :: rest =>
    if c ∈ storage then (storage, sampled, true)
    else Producer.registerBatch (c :: storage) (sampled + 1) rest

/-- The `while` loop of `produce()`, by recursion on the remaining attempt
budget (`max_attempts - n_attempts`).  A duplicate ends the loop with
`dupHit`, after the single `update()` call of the handler. -/
def Producer.produceAux (suggestB : Nat → List Nat) (pool : Nat) :
    Nat → List Nat → Nat → Nat → ProduceTrace
  | 0, storage, sampled, na =>
      { storage := storage, sampled := sampled, nAttempts := na,
        updateCalls := 0, dupHit := false }
  | fuel + 1, storage, sampled, na =>
      if sampled < pool then
        match Producer.registerBatch storage sampled (suggestB na) with
        | (storage2, sampled2, true) =>
            { storage := storage2, sampled := sampled2, nAttempts := na + 1,
              updateCalls := 1, dupHit := true }
        | (storage2, sampled2, false) =>
            Producer.produceAux suggestB pool fuel storage2 sampled2 (na + 1)
      else
        { storage := storage, sampled := sampled, nAttempts := na,
          updateCalls := 0, dupHit := false }

/-- One call to `Producer.produce()`: run the loop from an empty count with
the full attempt budget, then classify the outcome — the `NameError` from the
duplicate handler's `update()` propagates first; otherwise the exhaustion
`RuntimeError` is raised iff `n_attempts >= max_attempts` (lines 79-86). -/
def Producer.produce (suggestB : Nat → List Nat) (pool maxAttempts : Nat)
    (storage : List Nat) : ProduceTrace × ProduceOutcome :=
  let tr := Producer.produceAux suggestB pool maxAttempts storage 0 0
  (tr,
    if tr.dupHit then ProduceOutcome.errNameError
    else if maxAttempts ≤ tr.nAttempts then ProduceOutcome.errExhausted
    else ProduceOutcome.ok)

/-- A suggest behaviour returning one fresh point in round 0 and two fresh
points in round 1; every batch has at most `pool_size = 2` points. -/
def overshootSuggest : Nat → List Nat :=
  fun k => if k = 0 then [0] else [1, 2]

/-- Counterexample to C2 as stated: with `pool_size = 2` and
`max_attempts = 100`, round 0 registers one trial and round 1 registers two
more — `produce()` registers 3 > `pool_size` new trials in a single call
(the inner loop never re-checks `sampled_points` against `pool_size`). -/
theorem produce_pool_overshoot :
    ¬ ((Producer.produce overshootSuggest 2 100 []).1.sampled ≤ 2) := by decide

/-- A suggest behaviour that always returns the single point 0. -/
def oneSuggest : Nat → List Nat := fun _ => [0]

/-- Counterexample to C3 as stated: with `pool_size = 1` and
`max_attempts = 1`, the single round registers the one requested trial —
`pool_size` registrations are reached within the attempt budget — yet
`produce()` still raises the exhaustion error, because the final check fires
whenever `n_attempts >= max_attempts`, regardless of success. -/
theorem produce_raises_after_success :
    (Producer.produce oneSuggest 1 1 []).1.sampled = 1
    ∧ (Producer.produce oneSuggest 1 1 []).2 = ProduceOutcome.errExhausted := by
  exact ⟨rfl, rfl⟩

/-- A suggest behaviour that always re-suggests the already-stored point 5. -/
def dupSuggest : Nat → List Nat := fun _ => [5]

/-- C4 (evaluation at the failing input): storage already holds configuration
5 and `suggest` re-suggests it with `pool_size = 1`, `max_attempts = 100`.
The duplicate stops the batch, is not counted toward `sampled_points`, storage
still holds exactly one trial with that id, and exactly one `update()` call is
made — but that call raises `NameError`, which propagates out of `produce()`:
only one suggestion round ever runs, and suggesting never resumes. -/
theorem produce_duplicate_nameerror :
    (Producer.produce dupSuggest 1 100 [5]).2 = ProduceOutcome.errNameError
    ∧ (Producer.produce dupSuggest 1 100 [5]).1.updateCalls = 1
    ∧ (Producer.produce dupSuggest 1 100 [5]).1.sampled = 0
    ∧ (Producer.produce dupSuggest 1 100 [5]).1.storage = [5]
    ∧ (Producer.produce dupSuggest 1 100 [5]).1.nAttempts = 1 := by
  exact ⟨rfl, rfl, rfl, rfl, rfl⟩

/-- The inner registration loop adds at most the batch length to the
`sampled_points` count. -/
theorem registerBatch_sampled_le (batch : List Nat) :
    ∀ storage sampled, (Producer.registerBatch storage sampled batch).2.1
      ≤ sampled + batch.length := by
  induction batch with
  | nil => intro storage sampled; simp [Producer.registerBatch]
  | cons c rest ih =>
      intro storage sampled
      by_cases hc : c ∈ storage
      · simp only [Producer.registerBatch, if_pos hc, List.length_cons]
        omega
      · have h := ih (c :: storage) (sampled + 1)
        simp only [Producer.registerBatch, if_neg hc, List.length_cons]
        omega

/-- The loop runs at most `fuel` further rounds. -/
theorem produceAux_nAttempts_le (suggestB : Nat → List Nat) (pool : Nat) :
    ∀ fuel storage sampled na,
      (Producer.produceAux suggestB pool fuel storage sampled na).nAttempts ≤ na + fuel := by
  intro fuel
  induction fuel with
  | zero => intro storage sampled na; simp [Producer.produceAux]
  | succ fuel ih =>
      intro storage sampled na
      by_cases hs : sampled < pool
      · rcases hreg : Producer.registerBatch storage sampled (suggestB na) with ⟨st2, sm2, b⟩
        cases b
        · have h := ih st2 sm2 (na + 1)
          simp only [Producer.produceAux, hs, if_true, hreg]
          omega
        · simp only [Producer.produceAux, hs, if_true, hreg]
          omega
      · simp only [Producer.produceAux, if_neg hs]
        omega

/-- If every suggest batch has length at most `B` and at most `pool - 1`
trials are registered so far, the loop registers at most `pool - 1 + B`
trials in total. -/
theorem produceAux_sampled_le (suggestB : Nat → List Nat) (pool B : Nat)
    (hB : ∀ k, (suggestB k).length ≤ B) :
    ∀ fuel storage sampled na, sampled ≤ pool - 1 + B →
      (Producer.produceAux suggestB pool fuel storage sampled na).sampled ≤ pool - 1 + B := by
  intro fuel
  induction fuel with
  | zero => intro storage sampled na hsm; simpa [Producer.produceAux] using hsm
  | succ fuel ih =>
      intro storage sampled na hsm
      by_cases hs : sampled < pool
      · have hbound : (Producer.registerBatch storage sampled (suggestB na)).2.1
            ≤ pool - 1 + B := by
          have h1 := registerBatch_sampled_le (suggestB na) storage sampled
          have h2 := hB na
          omega
        rcases hreg : Producer.registerBatch storage sampled (suggestB na) with ⟨st2, sm2, b⟩
        rw [hreg] at hbound
        cases b
        · have h := ih st2 sm2 (na + 1) hbound
          simpa only [Producer.produceAux, hs, if_true, hreg] using h
        · simpa only [Producer.produceAux, hs, if_true, hreg] using hbound
      · simpa [Producer.produceAux, hs] using hsm

/-- C2 (amended): for every behaviour of the naive algorithm's suggest, a
single `produce()` call performs at most `max_attempts` suggestion rounds;
and when every suggest batch has at most `B` candidates, it registers at most
`pool_size - 1 + B` new trials — which can exceed `pool_size`, since the
inner loop never re-checks the count against `pool_size` mid-batch. -/
theorem produce_bounds (suggestB : Nat → List Nat) (pool maxAttempts B : Nat)
    (storage : List Nat) (hB : ∀ k, (suggestB k).length ≤ B) :
    (Producer.produce suggestB pool maxAttempts storage).1.nAttempts ≤ maxAttempts
    ∧ (Producer.produce suggestB pool maxAttempts storage).1.sampled ≤ pool - 1 + B := by
  constructor
  · simpa using produceAux_nAttempts_le suggestB pool maxAttempts storage 0 0
  · exact produceAux_sampled_le suggestB pool B hB maxAttempts storage 0 0 (by omega)

/-- Witness for C2 (amended): the behaviour of `overshootSuggest` (batches of
length at most 2) with `pool_size = 2`, `max_attempts = 100`: at most 100
rounds and at most 2 - 1 + 2 = 3 registrations — and indeed exactly 3. -/
theorem produce_bounds_witness :
    (Producer.produce overshootSuggest 2 100 []).1.nAttempts ≤ 100
    ∧ (Producer.produce overshootSuggest 2 100 []).1.sampled ≤ 2 - 1 + 2 := by
  exact produce_bounds overshootSuggest 2 100 2 []
    (fun k => by unfold overshootSuggest; split <;> decide)

/-- How the loop can end: with a duplicate hit, with the pool target reached,
or with the attempt budget consumed (`n_attempts` grew by exactly `fuel`). -/
theorem produceAux_exit (suggestB : Nat → List Nat) (pool : Nat) :
    ∀ fuel storage sampled na,
      (Producer.produceAux suggestB pool fuel storage sampled na).dupHit = true
      ∨ pool ≤ (Producer.produceAux suggestB pool fuel storage sampled na).sampled
      ∨ (Producer.produceAux suggestB pool fuel storage sampled na).nAttempts = na + fuel := by
  intro fuel
  induction fuel with
  | zero =>
      intro storage sampled na
      right; right
      simp [Producer.produceAux]
  | succ fuel ih =>
      intro storage sampled na
      by_cases hs : sampled < pool
      · rcases hreg : Producer.registerBatch storage sampled (suggestB na) with ⟨st2, sm2, b⟩
        cases b
        · have h := ih st2 sm2 (na + 1)
          simp only [Producer.produceAux, hs, if_true, hreg]
          rcases h with h | h | h
          · exact Or.inl h
          · exact Or.inr (Or.inl h)
          · right; right
            omega
        · left
          simp only [Producer.produceAux, hs, if_true, hreg]
      · right; left
        simp only [Producer.produceAux, if_neg hs]
        omega

/-- C3 (amended): `produce()` raises the exhaustion error exactly when all
`max_attempts` suggestion rounds elapse with no duplicate abort — even if
`pool_size` registrations were achieved on the final round; it returns
normally exactly when no duplicate is hit and strictly fewer than
`max_attempts` rounds are used, in which case at least `pool_size` new trials
were registered. -/
theorem produce_exhaustion_iff (suggestB : Nat → List Nat) (pool maxAttempts : Nat)
    (storage : List Nat) :
    ((Producer.produce suggestB pool maxAttempts storage).2 = ProduceOutcome.errExhausted
      ↔ (Producer.produce suggestB pool maxAttempts storage).1.dupHit = false
        ∧ (Producer.produce suggestB pool maxAttempts storage).1.nAttempts = maxAttempts)
    ∧ ((Producer.produce suggestB pool maxAttempts storage).2 = ProduceOutcome.ok
      ↔ (Producer.produce suggestB pool maxAttempts storage).1.dupHit = false
        ∧ (Producer.produce suggestB pool maxAttempts storage).1.nAttempts < maxAttempts)
    ∧ ((Producer.produce suggestB pool maxAttempts storage).2 = ProduceOutcome.ok
        → pool ≤ (Producer.produce suggestB pool maxAttempts storage).1.sampled) := by
  have hle : (Producer.produceAux suggestB pool maxAttempts storage 0 0).nAttempts
      ≤ maxAttempts := by
    simpa using produceAux_nAttempts_le suggestB pool maxAttempts storage 0 0
  have hexit := produceAux_exit suggestB pool maxAttempts storage 0 0
  have hfst : (Producer.produce suggestB pool maxAttempts storage).1
      = Producer.produceAux suggestB pool maxAttempts storage 0 0 := rfl
  have hsnd : (Producer.produce suggestB pool maxAttempts storage).2
      = (if (Producer.produceAux suggestB pool maxAttempts storage 0 0).dupHit then
          ProduceOutcome.errNameError
        else if maxAttempts ≤ (Producer.produceAux suggestB pool maxAttempts storage 0 0).nAttempts
          then ProduceOutcome.errExhausted
        else ProduceOutcome.ok) := rfl
  rw [hfst, hsnd]
  rcases hb : (Producer.produceAux suggestB pool maxAttempts storage 0 0).dupHit with _ | _
  · rw [hb] at hexit
    by_cases hm : maxAttempts ≤ (Producer.produceAux suggestB pool maxAttempts storage 0 0).nAttempts
    · simp only [Bool.false_eq_true, if_false, if_pos hm]
      refine ⟨by simp; omega, by simp; omega, fun hok => ?_⟩
      simp at hok
    · simp only [Bool.false_eq_true, if_false, if_neg hm]
      refine ⟨by simp; omega, by simp; omega, fun _ => ?_⟩
      rcases hexit with h | h | h
      · simp at h
      · exact h
      · omega
  · simp only [hb, if_true]
    refine ⟨by simp, by simp, fun hok => ?_⟩
    simp at hok

/-- A suggest behaviour returning two fresh points in round 0. -/
def freshPairSuggest : Nat → List Nat := fun _ => [3, 4]

/-- Witness for C3 (amended): with `pool_size = 2`, `max_attempts = 5`, round
0 registers both fresh points, no duplicate is hit, only 1 < 5 rounds are
used, so `produce()` returns normally, and at least `pool_size` trials were
registered. -/
theorem produce_exhaustion_iff_witness :
    (Producer.produce freshPairSuggest 2 5 []).2 = ProduceOutcome.ok
    ∧ 2 ≤ (Producer.produce freshPairSuggest 2 5 []).1.sampled := by
  refine ⟨?_, ?_⟩
  · exact (produce_exhaustion_iff freshPairSuggest 2 5 []).2.1.mpr (by decide)
  · exact (produce_exhaustion_iff freshPairSuggest 2 5 []).2.2 (by decide)

/-! ## Consumer

Modelled from the spec: the consumer module (`orion/core/worker/consumer.py`)
is not among the source files (only its unit tests are).  Spec section 4.3:
`consume(trial)` reserves the trial, re-infers the version-control metadata of
the user script and compares it field-for-field with the metadata recorded at
experiment creation — on any difference it aborts with a branching-event error
before launching anything; otherwise it launches the evaluation subprocess and
reconciles the terminal status, re-raising an external interruption after
marking the trial `interrupted`. -/

/-- Trial lifecycle status (spec section 3). -/
inductive TStatus where
  | new
  | reserved
  | interrupted
  | completed
  | broken
deriving DecidableEq

/-- Version-control metadata, as returned by `infer_versioning_metadata`
(spec section 6): `{type, is_dirty, head_sha, active_branch, diff_sha}`. -/
structure VCSInfo where
  vcsKind : String
  isDirty : Bool
  headSha : String
  activeBranch : String
  diffSha : String
deriving DecidableEq

/-- How the evaluation subprocess run ends once launched: normal success,
reported failure, or an external interruption delivered during execution
(operator signal or propagated interrupt). -/
inductive ExecOutcome where
  | success
  | failure
  | interruptedSig
deriving DecidableEq

/-- Errors `consume` can raise (spec section 7). -/
inductive ConsumeError where
  | branchingEvent
  | externalInterruption
deriving DecidableEq

/-- What one `consume(trial)` call did: the trial's status as persisted to
storage when the call ends, whether the evaluation subprocess was launched,
and the error re-raised to the caller, if any. -/
structure ConsumeResult where
  finalStatus : TStatus
  launched : Bool
  raised : Option ConsumeError
deriving DecidableEq

/-- Modelled from the spec: `Consumer.consume(trial)` (spec section 4.3).
`recorded` is the experiment's recorded versioning metadata, `current` the one
`infer_versioning_metadata` reports now, and `outcome` how the subprocess run
ends if it is launched.  Step 1 reserves the trial (its pre-execution status);
step 3 compares the metadata and aborts with a branching-event error, without
launching, when they differ; steps 4-7 launch the subprocess and reconcile:
completion marks `completed`, reported failure marks `broken`, and an external
interruption marks `interrupted` before re-raising to the caller. -/
def Consumer.consume (recorded current : VCSInfo) (outcome : ExecOutcome) : ConsumeResult :=
  if current ≠ recorded then
    { finalStatus := TStatus.reserved, launched := false,
      raised := some ConsumeError.branchingEvent }
  else
    match outcome with
    | ExecOutcome.success =>
        { finalStatus := TStatus.completed, launched := true, raised := none }
    | ExecOutcome.failure =>
        { finalStatus := TStatus.broken, launched := true, raised := none }
    | ExecOutcome.interruptedSig =>
        { finalStatus := TStatus.interrupted, launched := true,
          raised := some ConsumeError.externalInterruption }

/-- C7: for every trial execution, when an external interruption is delivered
during execution (the code provenance matching, so the subprocess was
launched), `consume` leaves the trial with status `interrupted` — never still
`reserved` — and re-raises the interruption to its caller. -/
theorem consumer_interrupt_spec (vcs : VCSInfo) :
    (Consumer.consume vcs vcs ExecOutcome.interruptedSig).finalStatus = TStatus.interrupted
    ∧ (Consumer.consume vcs vcs ExecOutcome.interruptedSig).finalStatus ≠ TStatus.reserved
    ∧ (Consumer.consume vcs vcs ExecOutcome.interruptedSig).raised
        = some ConsumeError.externalInterruption
    ∧ (Consumer.consume vcs vcs ExecOutcome.interruptedSig).launched = true := by
  simp [Consumer.consume]

/-- C8: whenever the re-inferred versioning metadata differs from the
experiment's recorded metadata, `consume` raises the branching-event error,
the evaluation subprocess is never launched, and the trial remains in its
pre-execution status (`reserved`, the status step 1 put it in), never reaching
a running or terminal status. -/
theorem consumer_code_drift_spec (recorded current : VCSInfo) (outcome : ExecOutcome)
    (hdiff : current ≠ recorded) :
    (Consumer.consume recorded current outcome).raised = some ConsumeError.branchingEvent
    ∧ (Consumer.consume recorded current outcome).launched = false
    ∧ (Consumer.consume recorded current outcome).finalStatus = TStatus.reserved := by
  simp [Consumer.consume, hdiff]

/-- The versioning metadata recorded at experiment creation. -/
def recordedVCS : VCSInfo :=
  { vcsKind := "git", isDirty := false, headSha := "master-sha",
    activeBranch := "master", diffSha := "diff-0" }

/-- Drifted metadata, as in the `test_code_changed` unit test: dirty state,
changed commit, changed branch, changed diff. -/
def driftedVCS : VCSInfo :=
  { vcsKind := "git", isDirty := true, headSha := "changed",
    activeBranch := "new_branch", diffSha := "new_diff" }

/-- Witness for C8: with the drifted metadata of `test_code_changed`,
`consume` raises the branching-event error without launching and the trial
stays in its pre-execution status. -/
theorem consumer_code_drift_witness :
    (Consumer.consume recordedVCS driftedVCS ExecOutcome.success).raised
      = some ConsumeError.branchingEvent
    ∧ (Consumer.consume recordedVCS driftedVCS ExecOutcome.success).launched = false
    ∧ (Consumer.consume recordedVCS driftedVCS ExecOutcome.success).finalStatus
      = TStatus.reserved :=
  consumer_code_drift_spec recordedVCS driftedVCS ExecOutcome.success (by decide)
